import Mathlib

/-!
Verification of the weak-perspective renderer in `lib/utils/renderer.py`
(classes `WeakPerspectiveCamera` and `Renderer`).

The development shallowly embeds the Python code:
* numpy `uint8`/integer image buffers become `NpArr` (integer-valued arrays
  with explicit height/width/channel dimensions and numpy broadcasting);
* the scene graph, node handles and the push/pop protocol become an explicit
  state type `RState` with one Lean function per Python method;
* float matrix arithmetic is carried out exactly over `ℚ`; the only
  transcendental inputs (sine/cosine of the rotation angle, the normalized
  rotation axis) are passed as parameters, and the one genuine IEEE artifact
  relevant here (NaN flooding from a zero-norm axis) is modelled by `Option`;
* Python exceptions become the explicit error type `PyErr`.  The repository
  defines no exception classes of its own, so the only errors that can
  surface are untyped builtins raised by the libraries (`ValueError` from
  pyrender/numpy, `AttributeError` for a missing attribute).
-/

/-- An integer-valued numpy array of shape `(h, w, c)`.  `val` is total; values
at indices outside the shape are irrelevant junk, as in a shallow embedding of
bounds-checked numpy indexing. -/
structure NpArr where
  h : ℕ
  w : ℕ
  c : ℕ
  val : ℕ → ℕ → ℕ → ℤ

/-- numpy broadcasting of a single axis: equal extents broadcast to themselves
and an extent of 1 stretches to the other extent; anything else is a numpy
`ValueError` (`operands could not be broadcast together`). -/
def npBroadcastDim (a b : ℕ) : Option ℕ :=
  if a = b then some a else if a = 1 then some b else if b = 1 then some a else none

/-- Index adjustment for a broadcast axis: an axis of extent 1 is always read
at index 0. -/
def npIdx (d i : ℕ) : ℕ :=
  if d = 1 then 0 else i

/-- Elementwise numpy binary operation with broadcasting over the three axes;
`none` is the untyped `ValueError` numpy raises on incompatible shapes. -/
def npZip (f : ℤ → ℤ → ℤ) (A B : NpArr) : Option NpArr :=
  match npBroadcastDim A.h B.h, npBroadcastDim A.w B.w, npBroadcastDim A.c B.c with
  | some h, some w, some c =>
      some ⟨h, w, c, fun r col k =>
        f (A.val (npIdx A.h r) (npIdx A.w col) (npIdx A.c k))
          (B.val (npIdx B.h r) (npIdx B.w col) (npIdx B.c k))⟩
  | _, _, _ => none

/-- The mask `(rgb[:, :, -1] > 0)[:, :, np.newaxis]`: the per-pixel boolean mask built
from the last (alpha) channel, as the 0/1 integer array numpy arithmetic sees. -/
def validMask (A : NpArr) : NpArr :=
  ⟨A.h, A.w, 1, fun r col _ => if 0 < A.val r col (A.c - 1) then 1 else 0⟩

/-- The slice `rgb[:, :, :-1]`: drop the last channel. -/
def sliceRgb (A : NpArr) : NpArr :=
  ⟨A.h, A.w, A.c - 1, fun r col k => A.val r col k⟩

/-- The expression `1 - valid_mask`: scalar minus array, elementwise. -/
def oneMinus (A : NpArr) : NpArr :=
  ⟨A.h, A.w, A.c, fun r col k => 1 - A.val r col k⟩

/-- The cast `.astype(np.uint8)`: wrap each value into the 8-bit range `[0, 256)`. -/
def astypeUint8 (A : NpArr) : NpArr :=
  ⟨A.h, A.w, A.c, fun r col k => A.val r col k % 256⟩

/-- The compositing lines shared verbatim by `Renderer.render`,
`Renderer.render_obj` and `Renderer.pop_and_render`:

`valid_mask = (rgb[:, :, -1] > 0)[:, :, np.newaxis]`
`output_img = rgb[:, :, :-1] * valid_mask + (1 - valid_mask) * img`
`image = output_img.astype(np.uint8)`

`none` is an untyped numpy broadcasting `ValueError`. -/
def composite (rgb img : NpArr) : Option NpArr :=
  (npZip (fun a b => a * b) (sliceRgb rgb) (validMask rgb)).bind fun t1 =>
  (npZip (fun a b => a * b) (oneMinus (validMask rgb)) img).bind fun t2 =>
  (npZip (fun a b => a + b) t1 t2).map astypeUint8

lemma npIdx_of_lt {d i : ℕ} (h : i < d) : npIdx d i = i := by
  unfold npIdx
  split
  · omega
  · rfl

lemma npBroadcastDim_self (a : ℕ) : npBroadcastDim a a = some a := by
  simp [npBroadcastDim]

lemma npBroadcastDim_one_left (b : ℕ) : npBroadcastDim 1 b = some b := by
  rcases eq_or_ne b 1 with h | h
  · subst h; simp [npBroadcastDim]
  · simp [npBroadcastDim, Ne.symm h]

/-- Closed form of `composite` for a 4-channel raster over an equal-sized
3-channel background. -/
lemma composite_eq_of_dims (rgb img : NpArr) (h4 : rgb.c = 4)
    (hh : img.h = rgb.h) (hw : img.w = rgb.w) (hc : img.c = 3) :
    composite rgb img = some ⟨rgb.h, rgb.w, 3, fun r col k =>
      ((rgb.val (npIdx rgb.h r) (npIdx rgb.w col) k *
          (if 0 < rgb.val (npIdx rgb.h r) (npIdx rgb.w col) 3 then 1 else 0)) +
        (1 - (if 0 < rgb.val (npIdx rgb.h r) (npIdx rgb.w col) 3 then 1 else 0)) *
          img.val (npIdx rgb.h r) (npIdx rgb.w col) k) % 256⟩ := by
  unfold composite npZip validMask sliceRgb oneMinus
  rw [h4, hh, hw, hc]
  simp only [npBroadcastDim_self, npBroadcastDim_one_left]
  norm_num [npBroadcastDim, astypeUint8, npIdx]
  funext r col k
  rcases eq_or_ne rgb.h 1 with h1 | h1 <;> rcases eq_or_ne rgb.w 1 with h2 | h2 <;>
    simp [h1, h2]

/-! Section: WeakPerspectiveCamera (section 4.1 of the spec) -/

/-- Fields stored by `WeakPerspectiveCamera.__init__`.  `scale` and
`translation` are the two-component camera parameters; `znear`/`zfar` are
stored on the pyrender base class (`zfar=None` is allowed). -/
structure WeakPerspectiveCamera where
  scale : Fin 2 → ℚ
  translation : Fin 2 → ℚ
  znear : ℚ
  zfar : Option ℚ

/-- Embedding of `np.eye(4)`. -/
def eye4 : Matrix (Fin 4) (Fin 4) ℚ := 1

/-- A single numpy entry assignment `P[i, j] = v`. -/
def setEntry (M : Matrix (Fin 4) (Fin 4) ℚ) (i j : Fin 4) (v : ℚ) :
    Matrix (Fin 4) (Fin 4) ℚ :=
  Matrix.of fun a b => if a = i ∧ b = j then v else M a b

/-- Embedding of `WeakPerspectiveCamera.get_projection_matrix`:

`P = np.eye(4)`
`P[0, 0] = self.scale[0]`
`P[1, 1] = self.scale[1]`
`P[0, 3] = self.translation[0] * self.scale[0]`
`P[1, 3] = -self.translation[1] * self.scale[1]`
`P[2, 2] = -1`

The `width`/`height` arguments of the Python method are unused and omitted;
the stored `znear`/`zfar` are never read. -/
def get_projection_matrix (cam : WeakPerspectiveCamera) : Matrix (Fin 4) (Fin 4) ℚ :=
  setEntry
    (setEntry
      (setEntry
        (setEntry
          (setEntry eye4 0 0 (cam.scale 0))
          1 1 (cam.scale 1))
        0 3 (cam.translation 0 * cam.scale 0))
      1 3 (-cam.translation 1 * cam.scale 1))
    2 2 (-1)

/-- Closed form of the weak-perspective projection matrix. -/
lemma get_projection_matrix_eq (cam : WeakPerspectiveCamera) :
    get_projection_matrix cam = Matrix.of
      ![![cam.scale 0, 0, 0, cam.translation 0 * cam.scale 0],
        ![0, cam.scale 1, 0, -cam.translation 1 * cam.scale 1],
        ![0, 0, -1, 0],
        ![0, 0, 0, 1]] := by
  ext i j
  fin_cases i <;> fin_cases j <;>
    simp +decide [get_projection_matrix, setEntry, eye4, Matrix.one_apply,
      Matrix.vecHead, Matrix.vecTail, Fin.ext_iff]

/-! Section: MeshTransformBuilder rotation (section 4.2 of the spec)

`trimesh.transformations.rotation_matrix(angle, direction)` computes
`sina = sin(angle)`, `cosa = cos(angle)`, normalizes `direction` to a unit
vector `d = direction / sqrt(dot(direction, direction))`, and builds

`M = diag(cosa) + outer(d, d) * (1 - cosa) + skew(d * sina)`

embedded in a 4x4 with last row/column from the identity.  `sina`, `cosa` and
`d` are irrational in general, so the embedding takes them as parameters; at
`angle = 0` the IEEE doubles are exactly `sina = 0.0` and `cosa = 1.0`.  When
`dot(direction, direction) = 0` the float normalization divides `0/0` and the
whole matrix fills with NaN; that outcome is modelled as `none`. -/

/-- Embedding of `numpy.dot(v, v)` for a 3-vector. -/
def normSq (v : Fin 3 → ℚ) : ℚ := v 0 * v 0 + v 1 * v 1 + v 2 * v 2

/-- The finite part of `trimesh.transformations.rotation_matrix` applied to an
already-normalized direction `d`. -/
def rotFromDir (sina cosa : ℚ) (d : Fin 3 → ℚ) : Matrix (Fin 4) (Fin 4) ℚ :=
  Matrix.of
    ![![cosa + d 0 * d 0 * (1 - cosa), d 0 * d 1 * (1 - cosa) - d 2 * sina,
        d 0 * d 2 * (1 - cosa) + d 1 * sina, 0],
      ![d 1 * d 0 * (1 - cosa) + d 2 * sina, cosa + d 1 * d 1 * (1 - cosa),
        d 1 * d 2 * (1 - cosa) - d 0 * sina, 0],
      ![d 2 * d 0 * (1 - cosa) - d 1 * sina, d 2 * d 1 * (1 - cosa) + d 0 * sina,
        cosa + d 2 * d 2 * (1 - cosa), 0],
      ![0, 0, 0, 1]]

/-- Embedding of `trimesh.transformations.rotation_matrix(angle, axis)` with
`sina = sin(angle)`, `cosa = cos(angle)` and `d = axis / ‖axis‖` supplied as
parameters.  `none` models the NaN-flooded matrix produced when
`‖axis‖ = 0` (float division `0/0` inside `unit_vector`). -/
def rotation_matrix (sina cosa : ℚ) (axis d : Fin 3 → ℚ) :
    Option (Matrix (Fin 4) (Fin 4) ℚ) :=
  if normSq axis = 0 then none else some (rotFromDir sina cosa d)

/-- Embedding of `trimesh.transformations.identity_matrix()`, i.e. `np.identity(4)`. -/
def identity_matrix : Matrix (Fin 4) (Fin 4) ℚ := 1

/-- The rotation factor `R` of the transform chain in `Renderer.render_obj`
(`mesh.apply_transform(R)` after the three scale matrices): computed
unconditionally as `rotation_matrix(math.radians(angle), axis)`, with no
zero-angle guard. -/
def render_obj_rotation (sina cosa : ℚ) (axis d : Fin 3 → ℚ) :
    Option (Matrix (Fin 4) (Fin 4) ℚ) :=
  rotation_matrix sina cosa axis d

/-- The rotation factor `R` of the transform chain in `Renderer.push_obj`:
guarded by `if angle == 0: R = identity_matrix() else: R = rotation_matrix(...)`
(the comment in the source reads `prevent divide by zero error when angle is 0`). -/
def push_obj_rotation (angle sina cosa : ℚ) (axis d : Fin 3 → ℚ) :
    Option (Matrix (Fin 4) (Fin 4) ℚ) :=
  if angle = 0 then some identity_matrix else rotation_matrix sina cosa axis d

lemma rotFromDir_zero_angle (d : Fin 3 → ℚ) : rotFromDir 0 1 d = 1 := by
  ext i j
  fin_cases i <;> fin_cases j <;>
    simp +decide [rotFromDir, Matrix.one_apply, Matrix.vecHead, Matrix.vecTail,
      Fin.ext_iff]

/-! Section: screenspace_to_worldspace (section 4.4 of the spec) -/

/-- Embedding of `np.linalg.inv` on a 4x4 matrix, in exact arithmetic: the inverse via the
adjugate formula.  `none` models the `LinAlgError` raised on a singular
matrix. -/
def npLinalgInv (M : Matrix (Fin 4) (Fin 4) ℚ) : Option (Matrix (Fin 4) (Fin 4) ℚ) :=
  if M.det = 0 then none else some (M.det⁻¹ • M.adjugate)

/-- Embedding of `Renderer.screenspace_to_worldspace` for an armed weak-perspective camera
(`self.cam_node.camera = cam`, `self.resolution = resolution`):

`ndc = [x / W * 2 - 1, y / H * 2 - 1, 0, 1]`
`return np.linalg.inv(projMatrix) @ ndc` -/
def screenspace_to_worldspace (cam : WeakPerspectiveCamera) (resolution : ℕ × ℕ)
    (x y : ℚ) : Option (Fin 4 → ℚ) :=
  let P := get_projection_matrix cam
  let ndc : Fin 4 → ℚ :=
    ![x / (resolution.1 : ℚ) * 2 - 1, y / (resolution.2 : ℚ) * 2 - 1, 0, 1]
  (npLinalgInv P).map (fun Minv => Minv.mulVec ndc)

/-- The determinant of the weak-perspective projection matrix. -/
lemma get_projection_matrix_det (cam : WeakPerspectiveCamera) :
    (get_projection_matrix cam).det = -(cam.scale 0 * cam.scale 1) := by
  rw [get_projection_matrix_eq]
  rw [Matrix.det_succ_row_zero]
  simp [Fin.sum_univ_succ, Matrix.det_fin_three, Matrix.vecHead, Matrix.vecTail]

lemma npLinalgInv_mul {M Minv : Matrix (Fin 4) (Fin 4) ℚ}
    (h : npLinalgInv M = some Minv) : M * Minv = 1 := by
  unfold npLinalgInv at h
  split at h
  · exact absurd h (by simp)
  · rename_i hd
    obtain rfl : M.det⁻¹ • M.adjugate = Minv := by
      simpa using h
    rw [Matrix.mul_smul, Matrix.mul_adjugate, smul_smul, inv_mul_cancel₀ hd, one_smul]

lemma npLinalgInv_isSome_of_det {M : Matrix (Fin 4) (Fin 4) ℚ}
    (hd : M.det ≠ 0) : npLinalgInv M = some (M.det⁻¹ • M.adjugate) := by
  simp [npLinalgInv, hd]

/-! Section: RenderSession state machine (section 4.4 of the spec)

The scene graph is the external pyrender `Scene`; the embedding tracks the
node handles the Python code can ever touch: a list of `(id, kind)` pairs
with a fresh-id counter.  Library behavior needed by the code and modelled
here, with the untyped exceptions it raises:
* `Scene.remove_node` raises `ValueError` when the node is not in the scene
  (in particular `remove_node(None)`);
* `OffscreenRenderer.render` raises `ValueError` when the scene contains no
  camera node; the raster it returns is opaque external data, supplied to the
  embedded operations as a parameter;
* reading the attribute `self.whiteBackground` when `__init__` never assigned
  it (i.e. `renderOnWhite` was false) raises `AttributeError`.

Mesh geometry payloads do not influence any tracked state or any claim about
the session protocol, so scene nodes carry only their kind; the geometry
mathematics is embedded separately (`rotation_matrix`, `composite`,
`get_projection_matrix`). -/

/-- The kinds of entity the renderer ever inserts into the scene. -/
inductive NodeKind where
  | light : NodeKind
  | mesh : NodeKind
  | camera : NodeKind
deriving DecidableEq

/-- Untyped Python builtin exceptions that can surface from the renderer code.
The repository defines no exception classes of its own. -/
inductive PyErr where
  | valueError : PyErr
  | attributeError : PyErr
deriving DecidableEq

/-- The mutable state of a `Renderer` instance. -/
structure RState where
  resolution : ℕ × ℕ
  orig_img : Bool
  wireframe : Bool
  whiteBackground : Option NpArr
  scene : List (ℕ × NodeKind)
  nextId : ℕ
  cam_node : Option ℕ
  camera_pose : Matrix (Fin 4) (Fin 4) ℚ
  object_nodes : List ℕ
  human_nodes : List ℕ

/-- Embedding of `np.full((resolution[1], resolution[0], 3), 255, dtype=np.uint8)`. -/
def whiteArr (resolution : ℕ × ℕ) : NpArr :=
  ⟨resolution.2, resolution.1, 3, fun _ _ _ => 255⟩

/-- Embedding of `Renderer.__init__`: scene with three point lights, empty node tracking,
no camera, and `whiteBackground` only when `renderOnWhite` is true. -/
def Renderer.init (resolution : ℕ × ℕ) (orig_img wireframe renderOnWhite : Bool) :
    RState :=
  { resolution := resolution
    orig_img := orig_img
    wireframe := wireframe
    whiteBackground := if renderOnWhite then some (whiteArr resolution) else none
    scene := [(0, NodeKind.light), (1, NodeKind.light), (2, NodeKind.light)]
    nextId := 3
    cam_node := none
    camera_pose := 1
    object_nodes := []
    human_nodes := [] }

/-- Embedding of `self.scene.add(entity)`: insert a node with a fresh handle, returning the
handle. -/
def sceneAdd (st : RState) (k : NodeKind) : ℕ × RState :=
  (st.nextId,
    { st with scene := st.scene ++ [(st.nextId, k)], nextId := st.nextId + 1 })

/-- Embedding of `self.scene.remove_node(n)`: `none` models the `ValueError` pyrender raises
when the node is not in the scene. -/
def sceneRemoveId (st : RState) (n : ℕ) : Option RState :=
  if st.scene.any (fun p => p.1 == n) then
    some { st with scene := st.scene.filter (fun p => p.1 != n) }
  else none

/-- Whether the scene currently holds a camera node (pyrender keeps
`main_camera_node` set exactly when one exists). -/
def hasCamera (st : RState) : Bool :=
  st.scene.any (fun p => p.2 == NodeKind.camera)

/-- Embedding of `self.renderer.render(self.scene, flags)`: the external rasterizer.  Its
RGBA output is opaque external data, passed in as `raster`; rendering a scene
without a camera raises an untyped `ValueError`. -/
def rasterize (st : RState) (raster : NpArr) : Except PyErr NpArr :=
  if hasCamera st then Except.ok raster else Except.error PyErr.valueError

/-- Embedding of `Renderer.render` (single-shot human path), node-lifecycle semantics:
add mesh node, reset `camera_pose`, add camera node, rasterize, composite over
`img`, remove the two nodes, return the composited image.  Failures propagate
as the exception together with the state at the point of failure. -/
def Renderer.render (st : RState) (raster img : NpArr) : Except PyErr NpArr × RState :=
  let m := sceneAdd st NodeKind.mesh
  let st1 := { m.2 with camera_pose := 1 }
  let cpair := sceneAdd st1 NodeKind.camera
  let st2 := cpair.2
  match rasterize st2 raster with
  | Except.error e => (Except.error e, st2)
  | Except.ok rgb =>
    match composite rgb img with
    | none => (Except.error PyErr.valueError, st2)
    | some image =>
      match sceneRemoveId st2 m.1 with
      | none => (Except.error PyErr.valueError, st2)
      | some st3 =>
        match sceneRemoveId st3 cpair.1 with
        | none => (Except.error PyErr.valueError, st3)
        | some st4 => (Except.ok image, st4)

/-- Embedding of `Renderer.render_obj` (single-shot auxiliary-object path): identical
node-lifecycle semantics to `Renderer.render`; the different mesh transform
chain (see `render_obj_rotation`) only affects the geometry payload. -/
def Renderer.render_obj (st : RState) (raster img : NpArr) :
    Except PyErr NpArr × RState :=
  let m := sceneAdd st NodeKind.mesh
  let st1 := { m.2 with camera_pose := 1 }
  let cpair := sceneAdd st1 NodeKind.camera
  let st2 := cpair.2
  match rasterize st2 raster with
  | Except.error e => (Except.error e, st2)
  | Except.ok rgb =>
    match composite rgb img with
    | none => (Except.error PyErr.valueError, st2)
    | some image =>
      match sceneRemoveId st2 m.1 with
      | none => (Except.error PyErr.valueError, st2)
      | some st3 =>
        match sceneRemoveId st3 cpair.1 with
        | none => (Except.error PyErr.valueError, st3)
        | some st4 => (Except.ok image, st4)

/-- Embedding of `Renderer.push_cam`: add a weak-perspective camera node and record it as
the current camera. -/
def Renderer.push_cam (st : RState) : RState :=
  let st1 := { st with camera_pose := 1 }
  let cpair := sceneAdd st1 NodeKind.camera
  { cpair.2 with cam_node := some cpair.1 }

/-- Embedding of `Renderer.push_default_cam`: add a perspective camera node and record it
as the current camera. -/
def Renderer.push_default_cam (st : RState) : RState :=
  let st1 := { st with camera_pose := 1 }
  let cpair := sceneAdd st1 NodeKind.camera
  { cpair.2 with cam_node := some cpair.1 }

/-- Embedding of `Renderer.push_human`: add a body-mesh node and append its handle to
`human_nodes`. -/
def Renderer.push_human (st : RState) : RState :=
  let m := sceneAdd st NodeKind.mesh
  { m.2 with human_nodes := st.human_nodes ++ [m.1] }

/-- Embedding of `Renderer.push_obj`: add an auxiliary-object mesh node and append its
handle to `object_nodes` (the rotation factor of its transform is
`push_obj_rotation`). -/
def Renderer.push_obj (st : RState) : RState :=
  let m := sceneAdd st NodeKind.mesh
  { m.2 with object_nodes := st.object_nodes ++ [m.1] }

/-- The removal loops `for n in self.object_nodes: self.scene.remove_node(n)`
(and the human loop): stops at the first missing node with pyrender's
`ValueError`, leaving the partially-mutated state. -/
def removeList : RState → List ℕ → Option PyErr × RState
  | st, [] => (none, st)
  | st, n :: ns =>
    match sceneRemoveId st n with
    | some st1 => removeList st1 ns
    | none => (some PyErr.valueError, st)

/-- Embedding of `Renderer.pop_and_render`: resolve the background (`self.whiteBackground`
when `img` is omitted — `AttributeError` if `__init__` never set it),
rasterize the scene, composite, then remove the camera node and every tracked
human/object node and clear the tracking state.  Each failure propagates as
the untyped exception together with the state at the point of failure. -/
def Renderer.pop_and_render (st : RState) (raster : NpArr) (img : Option NpArr) :
    Except PyErr NpArr × RState :=
  let bg : Except PyErr NpArr :=
    match img with
    | some i => Except.ok i
    | none =>
      match st.whiteBackground with
      | some w => Except.ok w
      | none => Except.error PyErr.attributeError
  match bg with
  | Except.error e => (Except.error e, st)
  | Except.ok bgArr =>
    match rasterize st raster with
    | Except.error e => (Except.error e, st)
    | Except.ok rgb =>
      match composite rgb bgArr with
      | none => (Except.error PyErr.valueError, st)
      | some image =>
        match st.cam_node with
        | none => (Except.error PyErr.valueError, st)
        | some c =>
          match sceneRemoveId st c with
          | none => (Except.error PyErr.valueError, st)
          | some st1 =>
            match removeList st1 st.object_nodes with
            | (some e, st2) => (Except.error e, st2)
            | (none, st2) =>
              match removeList st2 st.human_nodes with
              | (some e, st3) => (Except.error e, st3)
              | (none, st3) =>
                (Except.ok image,
                  { st3 with cam_node := none, object_nodes := [], human_nodes := [] })

/-- The exception (if any) carried by an operation result. -/
def errOf : Except PyErr NpArr → Option PyErr
  | Except.error e => some e
  | Except.ok _ => none

/-- One caller-visible session operation, with the external data it consumes
(raster output of the rasterizer, background images). -/
inductive Op where
  | render : NpArr → NpArr → Op
  | render_obj : NpArr → NpArr → Op
  | push_cam : Op
  | push_default_cam : Op
  | push_human : Op
  | push_obj : Op
  | pop_and_render : NpArr → Option NpArr → Op

/-- The state effect of one operation (the returned image or exception is
dropped; on an exception the state is the partially-mutated state at the
point of failure, as in Python). -/
def applyOp (st : RState) : Op → RState
  | Op.render raster img => (Renderer.render st raster img).2
  | Op.render_obj raster img => (Renderer.render_obj st raster img).2
  | Op.push_cam => Renderer.push_cam st
  | Op.push_default_cam => Renderer.push_default_cam st
  | Op.push_human => Renderer.push_human st
  | Op.push_obj => Renderer.push_obj st
  | Op.pop_and_render raster img => (Renderer.pop_and_render st raster img).2

/-- A whole session: the operations applied in order from a given state. -/
def applyOps (st : RState) (ops : List Op) : RState :=
  ops.foldl applyOp st

/-! Section: Session invariants -/

/-- The three point-light nodes added by `Renderer.__init__` are in the scene. -/
def lightsPresent (st : RState) : Prop :=
  (0, NodeKind.light) ∈ st.scene ∧ (1, NodeKind.light) ∈ st.scene ∧
    (2, NodeKind.light) ∈ st.scene

/-- Every handle the session can ever remove (the tracked camera and mesh
handles, and any handle yet to be allocated) is ≥ 3, so it is never a light. -/
def idsTracked (st : RState) : Prop :=
  3 ≤ st.nextId ∧ (∀ n, st.cam_node = some n → 3 ≤ n) ∧
    (∀ n ∈ st.object_nodes, 3 ≤ n) ∧ (∀ n ∈ st.human_nodes, 3 ≤ n)

def SessionInv (st : RState) : Prop := lightsPresent st ∧ idsTracked st

lemma sceneRemoveId_spec {st st' : RState} {n : ℕ}
    (h : sceneRemoveId st n = some st') :
    st'.scene = st.scene.filter (fun p => p.1 != n) ∧ st'.nextId = st.nextId ∧
      st'.cam_node = st.cam_node ∧ st'.object_nodes = st.object_nodes ∧
      st'.human_nodes = st.human_nodes ∧ st'.resolution = st.resolution ∧
      st'.whiteBackground = st.whiteBackground := by
  unfold sceneRemoveId at h
  split at h
  · cases Option.some.inj h
    exact ⟨rfl, rfl, rfl, rfl, rfl, rfl, rfl⟩
  · exact absurd h (by simp)

lemma removeList_spec (ns : List ℕ) (st : RState) :
    (removeList st ns).2.nextId = st.nextId ∧
      (removeList st ns).2.cam_node = st.cam_node ∧
      (removeList st ns).2.object_nodes = st.object_nodes ∧
      (removeList st ns).2.human_nodes = st.human_nodes ∧
      (removeList st ns).2.resolution = st.resolution ∧
      (removeList st ns).2.whiteBackground = st.whiteBackground ∧
      (∀ x ∈ (removeList st ns).2.scene, x ∈ st.scene) ∧
      (∀ x ∈ st.scene, (∀ n ∈ ns, x.1 ≠ n) → x ∈ (removeList st ns).2.scene) := by
  induction ns generalizing st with
  | nil =>
    refine ⟨rfl, rfl, rfl, rfl, rfl, rfl, ?_, ?_⟩ <;> simp [removeList]
  | cons m ms ih =>
    unfold removeList
    cases hrm : sceneRemoveId st m with
    | none =>
      exact ⟨rfl, rfl, rfl, rfl, rfl, rfl, fun x hx => hx, fun x hx _ => hx⟩
    | some st1 =>
      obtain ⟨hsc, hni, hcn, hon, hhn, hre, hwb⟩ := sceneRemoveId_spec hrm
      obtain ⟨ih1, ih2, ih3, ih4, ih5, ih6, ih7, ih8⟩ := ih st1
      refine ⟨ih1.trans hni, ih2.trans hcn, ih3.trans hon, ih4.trans hhn,
        ih5.trans hre, ih6.trans hwb, ?_, ?_⟩
      · intro x hx
        have := ih7 x hx
        rw [hsc] at this
        exact List.mem_filter.mp this |>.1
      · intro x hx hne
        refine ih8 x ?_ ?_
        · rw [hsc]
          refine List.mem_filter.mpr ⟨hx, ?_⟩
          simpa using hne m (by simp)
        · intro n hn
          exact hne n (by simp [hn])

lemma removeList_removes {ns : List ℕ} {st st' : RState}
    (h : removeList st ns = (none, st')) :
    ∀ n ∈ ns, ∀ k, (n, k) ∉ st'.scene := by
  induction ns generalizing st with
  | nil => simp
  | cons m ms ih =>
    unfold removeList at h
    cases hrm : sceneRemoveId st m with
    | none => rw [hrm] at h; cases h
    | some st1 =>
      rw [hrm] at h
      have h2 : removeList st1 ms = (none, st') := h
      obtain ⟨hsc, -, -, -, -, -, -⟩ := sceneRemoveId_spec hrm
      intro n hn k hmem
      rcases List.mem_cons.mp hn with rfl | hn
      · have hsub := (removeList_spec ms st1).2.2.2.2.2.2.1
        rw [h2] at hsub
        have : (n, k) ∈ st1.scene := hsub _ hmem
        rw [hsc] at this
        have := List.mem_filter.mp this |>.2
        simp at this
      · exact ih h2 n hn k hmem

lemma removeList_result_eq {ns : List ℕ} {st : RState} :
    removeList st ns = ((removeList st ns).1, (removeList st ns).2) := rfl

lemma sceneAdd_inv {st : RState} {k : NodeKind} (hi : SessionInv st) :
    SessionInv (sceneAdd st k).2 ∧ 3 ≤ (sceneAdd st k).1 := by
  obtain ⟨⟨l0, l1, l2⟩, hn, hc, ho, hh⟩ := hi
  refine ⟨⟨⟨?_, ?_, ?_⟩, ?_, ?_, ?_, ?_⟩, ?_⟩ <;>
    simp [sceneAdd] <;> first
      | exact Or.inl l0
      | exact Or.inl l1
      | exact Or.inl l2
      | omega
      | exact hc
      | exact ho
      | exact hh

lemma sceneRemoveId_inv {st st' : RState} {n : ℕ} (h3 : 3 ≤ n)
    (h : sceneRemoveId st n = some st') (hi : SessionInv st) : SessionInv st' := by
  obtain ⟨⟨l0, l1, l2⟩, hn, hc, ho, hh⟩ := hi
  obtain ⟨hsc, hni, hcn, hon, hhn, -, -⟩ := sceneRemoveId_spec h
  refine ⟨⟨?_, ?_, ?_⟩, ?_, ?_, ?_, ?_⟩
  · rw [hsc]; exact List.mem_filter.mpr ⟨l0, by simp; omega⟩
  · rw [hsc]; exact List.mem_filter.mpr ⟨l1, by simp; omega⟩
  · rw [hsc]; exact List.mem_filter.mpr ⟨l2, by simp; omega⟩
  · rw [hni]; exact hn
  · rw [hcn]; exact hc
  · rw [hon]; exact ho
  · rw [hhn]; exact hh

lemma removeList_inv (ns : List ℕ) {st : RState} (h3 : ∀ n ∈ ns, 3 ≤ n)
    (hi : SessionInv st) : SessionInv (removeList st ns).2 := by
  obtain ⟨⟨l0, l1, l2⟩, hn, hc, ho, hh⟩ := hi
  obtain ⟨hni, hcn, hon, hhn, -, -, -, hkeep⟩ := removeList_spec ns st
  refine ⟨⟨?_, ?_, ?_⟩, ?_, ?_, ?_, ?_⟩
  · exact hkeep _ l0 (fun n hn => by have := h3 n hn; omega)
  · exact hkeep _ l1 (fun n hn => by have := h3 n hn; omega)
  · exact hkeep _ l2 (fun n hn => by have := h3 n hn; omega)
  · rw [hni]; exact hn
  · rw [hcn]; exact hc
  · rw [hon]; exact ho
  · rw [hhn]; exact hh

lemma camera_pose_set_inv {st : RState} (hi : SessionInv st) :
    SessionInv { st with camera_pose := 1 } := hi

lemma render_inv (st : RState) (raster img : NpArr) (hi : SessionInv st) :
    SessionInv (Renderer.render st raster img).2 := by
  unfold Renderer.render
  dsimp only
  obtain ⟨h1, h2⟩ := sceneAdd_inv (k := NodeKind.mesh) hi
  obtain ⟨h3, h4⟩ := sceneAdd_inv (k := NodeKind.camera) (camera_pose_set_inv h1)
  split
  · exact h3
  · split
    · exact h3
    · split
      · exact h3
      · rename_i st3 hrm
        have h5 := sceneRemoveId_inv h2 hrm h3
        split
        · exact h5
        · rename_i st4 hrm2
          exact sceneRemoveId_inv h4 hrm2 h5

lemma render_obj_inv (st : RState) (raster img : NpArr) (hi : SessionInv st) :
    SessionInv (Renderer.render_obj st raster img).2 := by
  unfold Renderer.render_obj
  dsimp only
  obtain ⟨h1, h2⟩ := sceneAdd_inv (k := NodeKind.mesh) hi
  obtain ⟨h3, h4⟩ := sceneAdd_inv (k := NodeKind.camera) (camera_pose_set_inv h1)
  split
  · exact h3
  · split
    · exact h3
    · split
      · exact h3
      · rename_i st3 hrm
        have h5 := sceneRemoveId_inv h2 hrm h3
        split
        · exact h5
        · rename_i st4 hrm2
          exact sceneRemoveId_inv h4 hrm2 h5

lemma push_cam_inv (st : RState) (hi : SessionInv st) :
    SessionInv (Renderer.push_cam st) := by
  unfold Renderer.push_cam
  dsimp only
  obtain ⟨h1, h2⟩ := sceneAdd_inv (k := NodeKind.camera) (camera_pose_set_inv hi)
  obtain ⟨hl, hn, -, ho, hh⟩ := h1
  refine ⟨hl, hn, ?_, ho, hh⟩
  intro n hn2
  cases hn2
  exact h2

lemma push_default_cam_inv (st : RState) (hi : SessionInv st) :
    SessionInv (Renderer.push_default_cam st) := by
  unfold Renderer.push_default_cam
  dsimp only
  obtain ⟨h1, h2⟩ := sceneAdd_inv (k := NodeKind.camera) (camera_pose_set_inv hi)
  obtain ⟨hl, hn, -, ho, hh⟩ := h1
  refine ⟨hl, hn, ?_, ho, hh⟩
  intro n hn2
  cases hn2
  exact h2

lemma push_human_inv (st : RState) (hi : SessionInv st) :
    SessionInv (Renderer.push_human st) := by
  unfold Renderer.push_human
  dsimp only
  obtain ⟨h1, h2⟩ := sceneAdd_inv (k := NodeKind.mesh) hi
  obtain ⟨hl, hn, hc, ho, -⟩ := h1
  refine ⟨hl, hn, hc, ho, ?_⟩
  intro n hn2
  rcases List.mem_append.mp hn2 with h | h
  · exact hi.2.2.2.2 n h
  · simp at h
    subst h
    exact h2

lemma push_obj_inv (st : RState) (hi : SessionInv st) :
    SessionInv (Renderer.push_obj st) := by
  unfold Renderer.push_obj
  dsimp only
  obtain ⟨h1, h2⟩ := sceneAdd_inv (k := NodeKind.mesh) hi
  obtain ⟨hl, hn, hc, -, hh⟩ := h1
  refine ⟨hl, hn, hc, ?_, hh⟩
  intro n hn2
  rcases List.mem_append.mp hn2 with h | h
  · exact hi.2.2.2.1 n h
  · simp at h
    subst h
    exact h2

lemma clear_tracking_inv {st : RState} (hi : SessionInv st) :
    SessionInv { st with cam_node := none, object_nodes := [], human_nodes := [] } := by
  obtain ⟨hl, hn, -, -, -⟩ := hi
  exact ⟨hl, hn, by simp, by simp, by simp⟩

lemma pop_and_render_inv (st : RState) (raster : NpArr) (img : Option NpArr)
    (hi : SessionInv st) : SessionInv (Renderer.pop_and_render st raster img).2 := by
  unfold Renderer.pop_and_render
  dsimp only
  split
  · exact hi
  · split
    · exact hi
    · split
      · exact hi
      · split
        · exact hi
        · rename_i c hc
          split
          · exact hi
          · rename_i st1 hrm
            have hinv1 := sceneRemoveId_inv (hi.2.2.1 c hc) hrm hi
            have hinv2 := removeList_inv st.object_nodes
              (fun n hn => hi.2.2.2.1 n hn) hinv1
            split
            · rename_i e st2 hrl
              have : st2 = (removeList st1 st.object_nodes).2 := by rw [hrl]
              rw [this]
              exact hinv2
            · rename_i st2 hrl
              have hst2 : st2 = (removeList st1 st.object_nodes).2 := by rw [hrl]
              have hinv3 : SessionInv st2 := by rw [hst2]; exact hinv2
              have hinv4 := removeList_inv st.human_nodes
                (fun n hn => hi.2.2.2.2 n hn) hinv3
              split
              · rename_i e2 st3 hrl2
                have : st3 = (removeList st2 st.human_nodes).2 := by rw [hrl2]
                rw [this]
                exact hinv4
              · rename_i st3 hrl2
                have hst3 : st3 = (removeList st2 st.human_nodes).2 := by rw [hrl2]
                refine clear_tracking_inv ?_
                rw [hst3]
                exact hinv4

lemma applyOp_inv {st : RState} (op : Op) (hi : SessionInv st) :
    SessionInv (applyOp st op) := by
  cases op with
  | render raster img => exact render_inv st raster img hi
  | render_obj raster img => exact render_obj_inv st raster img hi
  | push_cam => exact push_cam_inv st hi
  | push_default_cam => exact push_default_cam_inv st hi
  | push_human => exact push_human_inv st hi
  | push_obj => exact push_obj_inv st hi
  | pop_and_render raster img => exact pop_and_render_inv st raster img hi

lemma applyOps_inv {st : RState} (ops : List Op) (hi : SessionInv st) :
    SessionInv (applyOps st ops) := by
  induction ops generalizing st with
  | nil => exact hi
  | cons op ops ih => exact ih (applyOp_inv op hi)

lemma init_inv (resolution : ℕ × ℕ) (orig_img wireframe renderOnWhite : Bool) :
    SessionInv (Renderer.init resolution orig_img wireframe renderOnWhite) := by
  refine ⟨⟨?_, ?_, ?_⟩, ?_, ?_, ?_, ?_⟩ <;> simp [Renderer.init]

/-! Section: Claim theorems: projection matrix, compositing, rotation, round trip -/

/-- Claim C1: for every scale pair and translation pair, the weak-perspective
camera's `get_projection_matrix` returns the 4x4 matrix equal to the identity
except `P[0][0] = scaleX`, `P[1][1] = scaleY`, `P[0][3] = transX * scaleX`,
`P[1][3] = -transY * scaleY`, `P[2][2] = -1`; the returned entries are
independent of the stored `znear` and `zfar` values. -/
theorem C1_projection_matrix_shape (s t : Fin 2 → ℚ) (zn zn' : ℚ)
    (zf zf' : Option ℚ) :
    get_projection_matrix ⟨s, t, zn, zf⟩ = Matrix.of
      ![![s 0, 0, 0, t 0 * s 0],
        ![0, s 1, 0, -t 1 * s 1],
        ![0, 0, -1, 0],
        ![0, 0, 0, 1]] ∧
    get_projection_matrix ⟨s, t, zn, zf⟩ = get_projection_matrix ⟨s, t, zn', zf'⟩ := by
  refine ⟨get_projection_matrix_eq ⟨s, t, zn, zf⟩, ?_⟩
  rw [get_projection_matrix_eq, get_projection_matrix_eq]

/-- Claim C2: for a 4-channel raster and an equal-sized 3-channel background,
the composite holds at each in-range pixel exactly the raster's RGB value when
that pixel's alpha is greater than 0, and exactly the background's RGB value
otherwise, as 8-bit values; alpha = 128 in particular selects the raster's RGB
unchanged (a hard threshold, never a proportional blend). -/
theorem C2_composite_hard_threshold (rgb img : NpArr) (r c k : ℕ)
    (h4 : rgb.c = 4) (hh : img.h = rgb.h) (hw : img.w = rgb.w) (hc : img.c = 3)
    (hr : r < rgb.h) (hcol : c < rgb.w) (_hk : k < 3)
    (hrgb0 : 0 ≤ rgb.val r c k) (hrgb1 : rgb.val r c k < 256)
    (himg0 : 0 ≤ img.val r c k) (himg1 : img.val r c k < 256) :
    ∃ out, composite rgb img = some out ∧ out.h = rgb.h ∧ out.w = rgb.w ∧
      out.c = 3 ∧
      out.val r c k = if 0 < rgb.val r c 3 then rgb.val r c k else img.val r c k := by
  refine ⟨_, composite_eq_of_dims rgb img h4 hh hw hc, rfl, rfl, rfl, ?_⟩
  dsimp only
  rw [npIdx_of_lt hr, npIdx_of_lt hcol]
  by_cases halpha : 0 < rgb.val r c 3
  · simp only [halpha, if_true, mul_one, sub_self, zero_mul, add_zero]
    exact Int.emod_eq_of_lt hrgb0 hrgb1
  · simp only [halpha, if_false, mul_zero, sub_zero, one_mul, zero_add]
    exact Int.emod_eq_of_lt himg0 himg1

/-- A 1x1 RGBA raster pixel with alpha 128 and RGB (10, 20, 30). -/
def rgbAlpha128 : NpArr :=
  ⟨1, 1, 4, fun _ _ k => if k = 3 then 128 else if k = 0 then 10 else if k = 1 then 20 else 30⟩

/-- A 1x1 background pixel with RGB (200, 200, 200). -/
def bgGray : NpArr := ⟨1, 1, 3, fun _ _ _ => 200⟩

theorem C2_composite_hard_threshold_witness :
    ∃ out, composite rgbAlpha128 bgGray = some out ∧ out.h = rgbAlpha128.h ∧
      out.w = rgbAlpha128.w ∧ out.c = 3 ∧
      out.val 0 0 0 =
        if 0 < rgbAlpha128.val 0 0 3 then rgbAlpha128.val 0 0 0 else bgGray.val 0 0 0 :=
  C2_composite_hard_threshold rgbAlpha128 bgGray 0 0 0 rfl rfl rfl rfl
    (by decide) (by decide) (by decide) (by decide) (by decide) (by decide) (by decide)

/-- Claim C5 (counterexample): on the `render_obj` object path there is no
zero-angle guard; with `angleDegrees = 0` (so `sina = 0`, `cosa = 1`) and the
degenerate axis `(0, 0, 0)` the rotation computation divides by a zero axis
norm and floods the matrix with NaN (modelled `none`) instead of producing the
identity, refuting the claim for "every axis vector supplied" on "every object
path". -/
theorem C5_zero_angle_counterexample :
    render_obj_rotation 0 1 ![0, 0, 0] ![0, 0, 0] = none := by
  simp [render_obj_rotation, rotation_matrix, normSq]

/-- Claim C5 (amended): with `angleDegrees = 0` the rotation component is
exactly the identity matrix on the `push_obj` path for every axis (including
degenerate ones, thanks to its explicit guard), and on the `render_obj` path
for every axis of nonzero squared norm; the degenerate axis on the
`render_obj` path instead yields the NaN artifact shown in the counterexample. -/
theorem C5_zero_angle_rotation_identity (sina cosa : ℚ) (axis d : Fin 3 → ℚ) :
    push_obj_rotation 0 sina cosa axis d = some identity_matrix ∧
    (normSq axis ≠ 0 → render_obj_rotation 0 1 axis d = some identity_matrix) := by
  constructor
  · simp [push_obj_rotation]
  · intro hax
    simp [render_obj_rotation, rotation_matrix, hax, rotFromDir_zero_angle,
      identity_matrix]

theorem C5_zero_angle_rotation_identity_witness :
    push_obj_rotation 0 0 1 ![1, 0, 0] ![1, 0, 0] = some identity_matrix ∧
    render_obj_rotation 0 1 ![1, 0, 0] ![1, 0, 0] = some identity_matrix := by
  have h := C5_zero_angle_rotation_identity 0 1 ![1, 0, 0] ![1, 0, 0]
  exact ⟨h.1, h.2 (by norm_num [normSq])⟩

/-- Claim C6: for every armed weak-perspective camera whose projection matrix
is invertible (nonzero scales) and every pixel coordinate, re-projecting the
world-space point returned by `screenspace_to_worldspace` through that same
projection matrix recovers the original NDC coordinates
`(2 x / width - 1, 2 y / height - 1)` exactly. -/
theorem C6_screenspace_round_trip (s t : Fin 2 → ℚ) (zn : ℚ) (zf : Option ℚ)
    (resolution : ℕ × ℕ) (x y : ℚ) (hs0 : s 0 ≠ 0) (hs1 : s 1 ≠ 0) :
    ∃ wpt, screenspace_to_worldspace ⟨s, t, zn, zf⟩ resolution x y = some wpt ∧
      (get_projection_matrix ⟨s, t, zn, zf⟩).mulVec wpt =
        ![x / (resolution.1 : ℚ) * 2 - 1, y / (resolution.2 : ℚ) * 2 - 1, 0, 1] := by
  have hdet : (get_projection_matrix ⟨s, t, zn, zf⟩).det ≠ 0 := by
    rw [get_projection_matrix_det]
    dsimp only
    intro h
    rcases mul_eq_zero.mp (neg_eq_zero.mp h) with h | h
    exacts [hs0 h, hs1 h]
  have hinv := npLinalgInv_isSome_of_det hdet
  have hmul := npLinalgInv_mul hinv
  refine ⟨((get_projection_matrix ⟨s, t, zn, zf⟩).det⁻¹ •
      (get_projection_matrix ⟨s, t, zn, zf⟩).adjugate).mulVec
      ![x / (resolution.1 : ℚ) * 2 - 1, y / (resolution.2 : ℚ) * 2 - 1, 0, 1], ?_, ?_⟩
  · unfold screenspace_to_worldspace
    dsimp only
    rw [hinv]
    rfl
  · rw [Matrix.mulVec_mulVec, hmul, Matrix.one_mulVec]

theorem C6_screenspace_round_trip_witness :
    ∃ wpt, screenspace_to_worldspace ⟨![1, 1], ![0, 0], 1/20, some 1000⟩ (2, 2) 1 1
        = some wpt ∧
      (get_projection_matrix ⟨![1, 1], ![0, 0], 1/20, some 1000⟩).mulVec wpt =
        ![(1 : ℚ) / ((2 : ℕ) : ℚ) * 2 - 1, (1 : ℚ) / ((2 : ℕ) : ℚ) * 2 - 1, 0, 1] :=
  C6_screenspace_round_trip ![1, 1] ![0, 0] (1/20) (some 1000) (2, 2) 1 1
    (by decide) (by decide)

/-- A 2x2 RGBA raster (all channels 1). -/
def rasterTwo : NpArr := ⟨2, 2, 4, fun _ _ _ => 1⟩

/-- A 1x1 RGB background: spatial dimensions differ from `rasterTwo` but are
numpy broadcast-compatible. -/
def bgOne : NpArr := ⟨1, 1, 3, fun _ _ _ => 7⟩

/-- A 5x5 RGB background: spatial dimensions incompatible with `rasterTwo`. -/
def bgFive : NpArr := ⟨5, 5, 3, fun _ _ _ => 7⟩

/-- Claim C7 (counterexample): compositing a 2x2 raster over a 1x1 background
(different spatial dimensions) does not fail with any typed error — numpy
broadcasting silently produces an image.  No `DimensionMismatch` type exists
anywhere in the code. -/
theorem C7_dimension_mismatch_counterexample :
    rasterTwo.h ≠ bgOne.h ∧ rasterTwo.w ≠ bgOne.w ∧
    (composite rasterTwo bgOne).isSome = true := by
  refine ⟨by decide, by decide, by decide⟩

/-- Claim C7 (amended): the compositing step performs no dimension check of
its own: a background whose spatial dimensions are numpy broadcast-compatible
with the raster produces an image despite the mismatch, and a broadcast-incompatible
background makes the operation fail with numpy's untyped broadcasting
`ValueError` (modelled `none`), not a typed `DimensionMismatch`. -/
theorem C7_dimension_mismatch_amended (rgb img : NpArr)
    (h : npBroadcastDim rgb.h img.h = none ∨ npBroadcastDim rgb.w img.w = none) :
    composite rgb img = none := by
  have h2 : npZip (fun a b => a * b) (oneMinus (validMask rgb)) img = none := by
    unfold npZip oneMinus validMask
    rcases h with h | h
    · simp only at h ⊢
      rw [h]
    · cases hh : npBroadcastDim rgb.h img.h
      · rfl
      · rw [h]
  unfold composite
  rw [h2]
  cases npZip (fun a b => a * b) (sliceRgb rgb) (validMask rgb) <;> simp

theorem C7_dimension_mismatch_amended_witness :
    composite rasterTwo bgFive = none :=
  C7_dimension_mismatch_amended rasterTwo bgFive (Or.inl (by decide))

/-! Section: Claim theorems: session protocol -/

/-- Closed form of a successful `Renderer.render` call from a state whose
scene holds only already-allocated handles: the two transient nodes are added
and then removed again, restoring the scene exactly. -/
lemma single_shot_aux (st : RState) (raster img : NpArr)
    (hfresh : ∀ p ∈ st.scene, p.1 < st.nextId) :
    Renderer.render st raster img =
      match composite raster img with
      | none =>
        (Except.error PyErr.valueError,
          { st with
              scene := st.scene ++
                [(st.nextId, NodeKind.mesh), (st.nextId + 1, NodeKind.camera)],
              nextId := st.nextId + 1 + 1, camera_pose := 1 })
      | some image =>
        (Except.ok image,
          { st with
              scene := st.scene,
              nextId := st.nextId + 1 + 1,
              camera_pose := 1 }) := by
  have hf1 : st.scene.filter (fun p => p.1 != st.nextId) = st.scene :=
    List.filter_eq_self.mpr (fun a ha => by
      have := hfresh a ha
      simp only [bne_iff_ne, ne_eq]
      omega)
  have hf2 : st.scene.filter (fun p => p.1 != st.nextId + 1) = st.scene :=
    List.filter_eq_self.mpr (fun a ha => by
      have := hfresh a ha
      simp only [bne_iff_ne, ne_eq]
      omega)
  unfold Renderer.render
  dsimp only [sceneAdd]
  rw [show rasterize { st with
      scene := st.scene ++ [(st.nextId, NodeKind.mesh)] ++
        [(st.nextId + 1, NodeKind.camera)],
      nextId := st.nextId + 1 + 1, camera_pose := 1 } raster = Except.ok raster by
    simp [rasterize, hasCamera]]
  dsimp only
  cases hcomp : composite raster img with
  | none =>
    simp [List.append_assoc]
  | some image =>
    rw [show sceneRemoveId { st with
        scene := st.scene ++ [(st.nextId, NodeKind.mesh)] ++
          [(st.nextId + 1, NodeKind.camera)],
        nextId := st.nextId + 1 + 1, camera_pose := 1 } st.nextId = some { st with
        scene := st.scene ++ [(st.nextId + 1, NodeKind.camera)],
        nextId := st.nextId + 1 + 1, camera_pose := 1 } by
      simp [sceneRemoveId, List.filter_append, hf1]]
    dsimp only
    rw [show sceneRemoveId { st with
        scene := st.scene ++ [(st.nextId + 1, NodeKind.camera)],
        nextId := st.nextId + 1 + 1, camera_pose := 1 } (st.nextId + 1) = some { st with
        scene := st.scene, nextId := st.nextId + 1 + 1, camera_pose := 1 } by
      simp [sceneRemoveId, List.filter_append, hf2]]

/-- Claim C9: every single-shot `render` or `render_obj` call that returns is
atomic with respect to session state: it leaves `cam_node`, `object_nodes`,
`human_nodes` and the scene node list exactly as they were before the call
(the two transient nodes it inserted are removed again).  The freshness
hypothesis states that every scene handle was allocated by the session's own
counter, which holds for every reachable session state. -/
theorem C9_single_shot_atomic (st : RState) (raster img : NpArr)
    (hfresh : ∀ p ∈ st.scene, p.1 < st.nextId) :
    ((Renderer.render st raster img).1.isOk = true →
      (Renderer.render st raster img).2.cam_node = st.cam_node ∧
      (Renderer.render st raster img).2.object_nodes = st.object_nodes ∧
      (Renderer.render st raster img).2.human_nodes = st.human_nodes ∧
      (Renderer.render st raster img).2.scene = st.scene) ∧
    ((Renderer.render_obj st raster img).1.isOk = true →
      (Renderer.render_obj st raster img).2.cam_node = st.cam_node ∧
      (Renderer.render_obj st raster img).2.object_nodes = st.object_nodes ∧
      (Renderer.render_obj st raster img).2.human_nodes = st.human_nodes ∧
      (Renderer.render_obj st raster img).2.scene = st.scene) := by
  have hobj : Renderer.render_obj = Renderer.render := rfl
  have h := single_shot_aux st raster img hfresh
  rw [hobj]
  refine ⟨?_, ?_⟩ <;>
  · intro hok
    cases hcomp : composite raster img with
    | none =>
      rw [h, hcomp] at hok
      simp [Except.isOk, Except.toBool] at hok
    | some image =>
      rw [h, hcomp]
      exact ⟨rfl, rfl, rfl, rfl⟩

/-- A 1x1 RGBA raster for the single-shot witness. -/
def rasterOne : NpArr := ⟨1, 1, 4, fun _ _ _ => 1⟩

/-- A 1x1 RGB background for the single-shot witness. -/
def bgSmall : NpArr := ⟨1, 1, 3, fun _ _ _ => 2⟩

theorem C9_single_shot_atomic_witness :
    (Renderer.render (Renderer.init (1, 1) false false false) rasterOne bgSmall).2.scene
        = (Renderer.init (1, 1) false false false).scene ∧
    (Renderer.render_obj (Renderer.init (1, 1) false false false) rasterOne bgSmall).2.scene
        = (Renderer.init (1, 1) false false false).scene := by
  have h := C9_single_shot_atomic (Renderer.init (1, 1) false false false)
    rasterOne bgSmall (by decide)
  exact ⟨(h.1 (by decide)).2.2.2, (h.2 (by decide)).2.2.2⟩

/-- Success of `pop_and_render` forces the whole removal chain to have
succeeded, and the final state is the drained state with the tracking fields
cleared. -/
lemma pop_and_render_ok {st st' : RState} {raster image : NpArr} {img : Option NpArr}
    (h : Renderer.pop_and_render st raster img = (Except.ok image, st')) :
    ∃ c st1 st2 st3, st.cam_node = some c ∧ sceneRemoveId st c = some st1 ∧
      removeList st1 st.object_nodes = (none, st2) ∧
      removeList st2 st.human_nodes = (none, st3) ∧
      st' = { st3 with cam_node := none, object_nodes := [], human_nodes := [] } := by
  unfold Renderer.pop_and_render at h
  dsimp only at h
  split at h
  · exact absurd h (by simp)
  · split at h
    · exact absurd h (by simp)
    · split at h
      · exact absurd h (by simp)
      · split at h
        · exact absurd h (by simp)
        · rename_i c hc
          split at h
          · exact absurd h (by simp)
          · rename_i st1 hrm
            split at h
            · exact absurd h (by simp)
            · rename_i st2 hrl
              split at h
              · exact absurd h (by simp)
              · rename_i st3 hrl2
                refine ⟨c, st1, st2, st3, hc, hrm, hrl, hrl2, ?_⟩
                have h2 := (Prod.mk.injEq _ _ _ _).mp h
                exact h2.2.symm

/-- Claim C3: a `pop_and_render` call that returns an image removes the camera
node and every node tracked in `human_nodes` and `object_nodes` from the
scene, clears both lists and clears the current camera — leaving the session's
`human_nodes`/`object_nodes`/camera state identical to a freshly constructed
session (empty lists, no camera). -/
theorem C3_pop_and_render_clears_session (st : RState) (raster : NpArr)
    (img : Option NpArr)
    (hok : (Renderer.pop_and_render st raster img).1.isOk = true) :
    (Renderer.pop_and_render st raster img).2.cam_node = none ∧
    (Renderer.pop_and_render st raster img).2.object_nodes = [] ∧
    (Renderer.pop_and_render st raster img).2.human_nodes = [] ∧
    (∀ n, st.cam_node = some n →
      ∀ k, (n, k) ∉ (Renderer.pop_and_render st raster img).2.scene) ∧
    (∀ n ∈ st.object_nodes,
      ∀ k, (n, k) ∉ (Renderer.pop_and_render st raster img).2.scene) ∧
    (∀ n ∈ st.human_nodes,
      ∀ k, (n, k) ∉ (Renderer.pop_and_render st raster img).2.scene) := by
  rcases hres : (Renderer.pop_and_render st raster img).1 with e | image
  · rw [hres] at hok
    simp [Except.isOk, Except.toBool] at hok
  · have hpair : Renderer.pop_and_render st raster img =
        (Except.ok image, (Renderer.pop_and_render st raster img).2) := by
      rw [← hres]
    obtain ⟨c, st1, st2, st3, hc, hrm, hrl, hrl2, hst⟩ := pop_and_render_ok hpair
    rw [hst]
    obtain ⟨hsc1, -, -, -, -, -, -⟩ := sceneRemoveId_spec hrm
    have hsub12 := (removeList_spec st.object_nodes st1).2.2.2.2.2.2.1
    rw [hrl] at hsub12
    have hsub23 := (removeList_spec st.human_nodes st2).2.2.2.2.2.2.1
    rw [hrl2] at hsub23
    refine ⟨rfl, rfl, rfl, ?_, ?_, ?_⟩
    · intro n hn k hmem
      rw [hc] at hn
      obtain rfl : c = n := Option.some.inj hn
      have hmem1 : (c, k) ∈ st1.scene := hsub12 _ (hsub23 _ hmem)
      rw [hsc1] at hmem1
      have hfalse := (List.mem_filter.mp hmem1).2
      simp at hfalse
    · intro n hn k hmem
      exact removeList_removes hrl n hn k (hsub23 _ hmem)
    · intro n hn k hmem
      exact removeList_removes hrl2 n hn k hmem

/-- The flagship session of the claim: camera pushed, two humans and one
object pushed, from a fresh `renderOnWhite` session. -/
def sessionTwoHumansOneObj : RState :=
  Renderer.push_obj (Renderer.push_human (Renderer.push_human
    (Renderer.push_cam (Renderer.init (2, 2) false false true))))

theorem C3_pop_and_render_clears_session_witness :
    (Renderer.pop_and_render sessionTwoHumansOneObj rasterTwo none).2.cam_node = none ∧
    (Renderer.pop_and_render sessionTwoHumansOneObj rasterTwo none).2.object_nodes = [] ∧
    (Renderer.pop_and_render sessionTwoHumansOneObj rasterTwo none).2.human_nodes = [] := by
  have h := C3_pop_and_render_clears_session sessionTwoHumansOneObj rasterTwo none
    (by decide)
  exact ⟨h.1, h.2.1, h.2.2.1⟩

/-- Claim C4 (counterexample): invoking `pop_and_render` on a freshly
constructed session (no camera ever pushed) fails with pyrender's untyped
`ValueError` (raised when rendering a scene with no camera), not with a typed
`NoCameraError` — no such exception class exists anywhere in the code. -/
theorem C4_no_camera_counterexample :
    errOf (Renderer.pop_and_render (Renderer.init (2, 2) false false true)
      rasterTwo none).1 = some PyErr.valueError := by decide

/-- Claim C4 (amended): invoking `pop_and_render` with no camera in the scene
always fails with an untyped Python builtin exception — pyrender's
`ValueError`, or `AttributeError` when the background is omitted and
`whiteBackground` was never created — and never returns an image; the failure
is not the typed `NoCameraError` the claim names, because the code defines no
exception classes. -/
theorem C4_no_camera_amended (st : RState) (raster : NpArr) (img : Option NpArr)
    (hcam : hasCamera st = false) :
    ∃ e, (Renderer.pop_and_render st raster img).1 = Except.error e := by
  unfold Renderer.pop_and_render
  dsimp only
  cases img with
  | some i =>
    refine ⟨PyErr.valueError, ?_⟩
    simp [rasterize, hcam]
  | none =>
    cases hwb : st.whiteBackground with
    | none =>
      refine ⟨PyErr.attributeError, ?_⟩
      simp [hwb]
    | some w =>
      refine ⟨PyErr.valueError, ?_⟩
      simp [hwb, rasterize, hcam]

theorem C4_no_camera_amended_witness :
    ∃ e, (Renderer.pop_and_render (Renderer.init (2, 2) false false false)
      rasterTwo (some bgGray)).1 = Except.error e :=
  C4_no_camera_amended (Renderer.init (2, 2) false false false) rasterTwo
    (some bgGray) (by decide)

/-- Claim C8 (counterexample): a session constructed with
`renderOnWhite = false` (the default) has no `whiteBackground` attribute, so
`pop_and_render` with the background omitted fails with an untyped
`AttributeError` — even with a camera pushed — instead of compositing against
an internal white canvas. -/
theorem C8_missing_white_background_counterexample :
    errOf (Renderer.pop_and_render
      (Renderer.push_cam (Renderer.init (2, 2) false false false))
      rasterTwo none).1 = some PyErr.attributeError := by decide

lemma render_config (st : RState) (raster img : NpArr) :
    (Renderer.render st raster img).2.whiteBackground = st.whiteBackground ∧
    (Renderer.render st raster img).2.resolution = st.resolution := by
  unfold Renderer.render
  dsimp only
  split
  · exact ⟨rfl, rfl⟩
  · split
    · exact ⟨rfl, rfl⟩
    · split
      · exact ⟨rfl, rfl⟩
      · rename_i st3 hrm
        obtain ⟨-, -, -, -, -, hre, hwb⟩ := sceneRemoveId_spec hrm
        split
        · exact ⟨hwb, hre⟩
        · rename_i st4 hrm2
          obtain ⟨-, -, -, -, -, hre2, hwb2⟩ := sceneRemoveId_spec hrm2
          exact ⟨hwb2.trans hwb, hre2.trans hre⟩

lemma render_obj_config (st : RState) (raster img : NpArr) :
    (Renderer.render_obj st raster img).2.whiteBackground = st.whiteBackground ∧
    (Renderer.render_obj st raster img).2.resolution = st.resolution := by
  have hobj : Renderer.render_obj = Renderer.render := rfl
  rw [hobj]
  exact render_config st raster img

lemma pop_and_render_config (st : RState) (raster : NpArr) (img : Option NpArr) :
    (Renderer.pop_and_render st raster img).2.whiteBackground = st.whiteBackground ∧
    (Renderer.pop_and_render st raster img).2.resolution = st.resolution := by
  unfold Renderer.pop_and_render
  dsimp only
  split
  · exact ⟨rfl, rfl⟩
  · split
    · exact ⟨rfl, rfl⟩
    · split
      · exact ⟨rfl, rfl⟩
      · split
        · exact ⟨rfl, rfl⟩
        · rename_i c hc
          split
          · exact ⟨rfl, rfl⟩
          · rename_i st1 hrm
            obtain ⟨-, -, -, -, -, hre1, hwb1⟩ := sceneRemoveId_spec hrm
            have hrl1 := removeList_spec st.object_nodes st1
            split
            · rename_i e st2 hrl
              have hst2 : st2 = (removeList st1 st.object_nodes).2 := by rw [hrl]
              rw [hst2]
              exact ⟨hrl1.2.2.2.2.2.1.trans hwb1, hrl1.2.2.2.2.1.trans hre1⟩
            · rename_i st2 hrl
              have hst2 : st2 = (removeList st1 st.object_nodes).2 := by rw [hrl]
              have hrl2spec := removeList_spec st.human_nodes st2
              split
              · rename_i e2 st3 hrl2
                have hst3 : st3 = (removeList st2 st.human_nodes).2 := by rw [hrl2]
                rw [hst3]
                refine ⟨?_, ?_⟩
                · rw [hrl2spec.2.2.2.2.2.1, hst2, hrl1.2.2.2.2.2.1, hwb1]
                · rw [hrl2spec.2.2.2.2.1, hst2, hrl1.2.2.2.2.1, hre1]
              · rename_i st3 hrl2
                have hst3 : st3 = (removeList st2 st.human_nodes).2 := by rw [hrl2]
                refine ⟨?_, ?_⟩
                · show st3.whiteBackground = st.whiteBackground
                  rw [hst3, hrl2spec.2.2.2.2.2.1, hst2, hrl1.2.2.2.2.2.1, hwb1]
                · show st3.resolution = st.resolution
                  rw [hst3, hrl2spec.2.2.2.2.1, hst2, hrl1.2.2.2.2.1, hre1]

lemma applyOp_config (st : RState) (op : Op) :
    (applyOp st op).whiteBackground = st.whiteBackground ∧
    (applyOp st op).resolution = st.resolution := by
  cases op with
  | render raster img => exact render_config st raster img
  | render_obj raster img => exact render_obj_config st raster img
  | push_cam => exact ⟨rfl, rfl⟩
  | push_default_cam => exact ⟨rfl, rfl⟩
  | push_human => exact ⟨rfl, rfl⟩
  | push_obj => exact ⟨rfl, rfl⟩
  | pop_and_render raster img => exact pop_and_render_config st raster img

lemma applyOps_config (st : RState) (ops : List Op) :
    (applyOps st ops).whiteBackground = st.whiteBackground ∧
    (applyOps st ops).resolution = st.resolution := by
  induction ops generalizing st with
  | nil => exact ⟨rfl, rfl⟩
  | cons op ops ih =>
    have h1 := applyOp_config st op
    have h2 := ih (applyOp st op)
    exact ⟨h2.1.trans h1.1, h2.2.trans h1.2⟩

/-- Claim C8 (amended): for every session constructed with
`renderOnWhite = true`, after any sequence of operations a `pop_and_render`
call with the background omitted behaves exactly like a call with the internal
white canvas supplied explicitly; that canvas is opaque white (every value
255, 3 channels) with the session's fixed output resolution (height
`resolution.2`, width `resolution.1`).  Sessions constructed with
`renderOnWhite = false` instead fail with an untyped `AttributeError`,
as the counterexample shows. -/
theorem C8_omitted_background_uses_white_canvas (resolution : ℕ × ℕ)
    (orig_img wireframe : Bool) (ops : List Op) (raster : NpArr) :
    Renderer.pop_and_render
        (applyOps (Renderer.init resolution orig_img wireframe true) ops) raster none =
      Renderer.pop_and_render
        (applyOps (Renderer.init resolution orig_img wireframe true) ops) raster
        (some (whiteArr resolution)) ∧
    (whiteArr resolution).h = resolution.2 ∧ (whiteArr resolution).w = resolution.1 ∧
    (whiteArr resolution).c = 3 ∧
    (∀ r c k, (whiteArr resolution).val r c k = 255) := by
  refine ⟨?_, rfl, rfl, rfl, fun _ _ _ => rfl⟩
  have hwb : (applyOps (Renderer.init resolution orig_img wireframe true) ops).whiteBackground
      = some (whiteArr resolution) := by
    rw [(applyOps_config _ ops).1]
    simp [Renderer.init]
  unfold Renderer.pop_and_render
  dsimp only
  rw [hwb]

/-- Claim C10: the three point-light nodes added to the scene at session
construction are never removed by any session operation — after any sequence
of `render`, `render_obj`, `push_cam`, `push_default_cam`, `push_human`,
`push_obj` and `pop_and_render` calls, all three light nodes are still present
in the scene graph. -/
theorem C10_lights_never_removed (resolution : ℕ × ℕ)
    (orig_img wireframe renderOnWhite : Bool) (ops : List Op) :
    (0, NodeKind.light) ∈
      (applyOps (Renderer.init resolution orig_img wireframe renderOnWhite) ops).scene ∧
    (1, NodeKind.light) ∈
      (applyOps (Renderer.init resolution orig_img wireframe renderOnWhite) ops).scene ∧
    (2, NodeKind.light) ∈
      (applyOps (Renderer.init resolution orig_img wireframe renderOnWhite) ops).scene :=
  (applyOps_inv ops (init_inv resolution orig_img wireframe renderOnWhite)).1
